import Mathlib

/-
Verification of the streaming conversation pipeline of `ChatPromptWidget`
(src/airunner/gui/widgets/llm/chat_prompt_widget.py): a shallow embedding of
the widget state (generation session flags, token buffer, conversation
history list, rendered message-widget layout) together with the operations
the widget exposes, and theorems about the claimed properties.

Outbound collaborator calls (send_request, interrupt) are recorded in the
state as event logs; purely visual calls (progress bar, scrolling,
animations) have no observable effect on the modelled state and are omitted.
-/

namespace AirChat

/-- Empty string constant, used where the source compares against `""`. -/
def emptyString : String := ""

/-- The characters Python treats as whitespace (`str.isspace()`, the set
stripped by `str.lstrip()` with no arguments): tab, LF, VT, FF, CR, the
information separators 1C-1F, space, NEL, NBSP, and the Unicode space
separators. -/
def pyWhitespace : List Char :=
  ['\x09', '\x0A', '\x0B', '\x0C', '\x0D', '\x1C', '\x1D', '\x1E', '\x1F',
   '\x20', '\x85', '\xA0', '\u1680', '\u2000', '\u2001', '\u2002', '\u2003',
   '\u2004', '\u2005', '\u2006', '\u2007', '\u2008', '\u2009', '\u200A',
   '\u2028', '\u2029', '\u202F', '\u205F', '\u3000']

/-- Whether Python `str.isspace()` holds for a character. -/
def pyIsSpace (c : Char) : Bool :=
  pyWhitespace.contains c

/-- Modelled from Python: `str.lstrip()` with no arguments removes leading
whitespace characters (the Python whitespace set above). -/
def lstrip (s : String) : String :=
  String.mk (s.data.dropWhile pyIsSpace)

/-- Modelled from the spec: the helper `airunner.utils.llm.strip_names_from_message`
is imported by the widget but its source file is not part of this excerpt.
The spec (sections 4.3 and 8) describes the text applied to the view simply
as the combined streamed text, so the model passes the message through
unchanged. -/
def strip_names_from_message (message username botname : String) : String :=
  message

/-- Python `"".join(buffer)`: concatenation of the fragments in list order. -/
def joinStrings (l : List String) : String :=
  l.foldl (fun a b => a ++ b) emptyString

/-- Model of the external `LLMResponse` object carried in the
`LLM_TEXT_STREAMED_SIGNAL` payload; the widget reads exactly these fields. -/
structure LLMResponse where
  message : String
  is_first_message : Bool
  is_end_of_message : Bool
  node_id : Option Nat
  deriving DecidableEq

/-- Model of a rendered `MessageWidget`: the constructor arguments the widget
passes in `add_message_to_conversation`. -/
structure MessageWidget where
  name : String
  message : String
  is_bot : Bool
  message_id : Nat
  conversation_id : Option Int
  mood : Option String
  mood_emoji : Option String
  deriving DecidableEq

/-- An item of the scroll-area layout: a message widget or the spacer item. -/
inductive LayoutItem where
  | widget (w : MessageWidget)
  | spacer
  deriving DecidableEq

/-- Entry of `self.conversation_history`; the code reads the keys
`is_bot` and `content`. -/
structure HistEntry where
  is_bot : Bool
  content : String
  deriving DecidableEq

/-- Record of one outbound `api.llm.send_request` call, together with the
value of `held_message` at the moment the call was issued. -/
structure SendEvent where
  prompt : String
  held_at_send : Option String
  deriving DecidableEq

/-- Message data used by `_set_conversation_widgets` on conversation load. -/
structure MsgData where
  name : String
  content : String
  is_bot : Bool
  deriving DecidableEq

/-- The modelled state of `ChatPromptWidget`. -/
structure ChatState where
  generating : Bool
  held_message : Option String
  token_buffer : List String
  conversation_history : List HistEntry
  layout : List LayoutItem
  spacer_created : Bool
  prompt : String
  conversation_id : Option Int
  username : String
  botname : String
  bot_mood : Option String
  bot_mood_emoji : Option String
  send_disabled : Bool
  sent : List SendEvent
  interrupts : Nat
  warnings : Nat
  deriving DecidableEq

/-- Whether a layout item is the spacer. -/
def LayoutItem.isSpacer : LayoutItem → Bool
  | .spacer => true
  | .widget _ => false

/-- Number of message widgets in a layout (spacer items excluded). -/
def widgetCount (l : List LayoutItem) : Nat :=
  (l.filter fun it => !it.isSpacer).length

/-- The `message_id` fields of the message widgets of a layout, in order. -/
def widgetIds (l : List LayoutItem) : List Nat :=
  l.filterMap fun it =>
    match it with
    | .widget w => some w.message_id
    | .spacer => none

/-- The backward search of `add_message_to_conversation`, on a reversed
layout: skip non-widget items, return the first message widget found. -/
def lastWidgetRev : List LayoutItem → Option MessageWidget
  | [] => none
  | .spacer :: rest => lastWidgetRev rest
  | .widget w :: _ => some w

/-- The most recent message widget of a layout. -/
def lastWidget (l : List LayoutItem) : Option MessageWidget :=
  lastWidgetRev l.reverse

/-- On a reversed layout, replace the content of the first message widget
found (the `current_widget.update_message(message)` call). -/
def mutateLastBotRev (msg : String) : List LayoutItem → List LayoutItem
  | [] => []
  | .spacer :: rest => .spacer :: mutateLastBotRev msg rest
  | .widget w :: rest => .widget { w with message := msg } :: rest

/-- `remove_spacer`: if the spacer object exists, remove it from the layout. -/
def remove_spacer (s : ChatState) : ChatState :=
  if s.spacer_created then
    { s with layout := s.layout.filter fun it => !it.isSpacer }
  else s

/-- `add_spacer`: create the spacer if needed and append it to the layout. -/
def add_spacer (s : ChatState) : ChatState :=
  { s with spacer_created := true, layout := s.layout ++ [LayoutItem.spacer] }

/-- The append branch of `add_message_to_conversation`: remove the spacer,
build a `MessageWidget` when the message is non-empty (its `message_id` is
`layout.count() - 1` clamped at zero, computed after the spacer removal),
append it, then re-append the spacer. -/
def appendMessagePath (s : ChatState) (name msg : String) (is_bot : Bool) :
    ChatState :=
  let s1 := remove_spacer s
  let s2 :=
    if msg = emptyString then s1
    else
      { s1 with
        layout := s1.layout ++ [LayoutItem.widget
          { name := name
            message := msg
            is_bot := is_bot
            message_id := s1.layout.length - 1
            conversation_id := s1.conversation_id
            mood := if is_bot then s1.bot_mood else none
            mood_emoji := if is_bot then s1.bot_mood_emoji else none }] }
  add_spacer s2

/-- `add_message_to_conversation(name, message, is_bot, first_message)`:
when `first_message` is false, search backward for the most recent message
widget; if it is a bot widget, mutate its content in place (or do nothing
when the stripped message is empty) and return; if it is a user widget the
search breaks and the append branch runs; otherwise append. -/
def add_message_to_conversation (s : ChatState) (name message : String)
    (is_bot : Bool) (first_message : Bool) : ChatState :=
  let msg := strip_names_from_message
    (if first_message then lstrip message else message) s.username s.botname
  if first_message then
    appendMessagePath s name msg is_bot
  else
    match lastWidgetRev s.layout.reverse with
    | some w =>
      if w.is_bot then
        if msg = emptyString then s
        else { s with layout := (mutateLastBotRev msg s.layout.reverse).reverse }
      else appendMessagePath s name msg is_bot
    | none => appendMessagePath s name msg is_bot

/-- The duplicate guard of `flush_token_buffer`:
`len(history) == 0 or not history[-1]["is_bot"] or history[-1]["content"] != combined`. -/
def dedupAllows (hist : List HistEntry) (combined : String) : Bool :=
  match hist.getLast? with
  | none => true
  | some e => !e.is_bot || e.content != combined

/-- The body of `flush_token_buffer` after the buffer has been drained:
if the combined text is non-empty and the duplicate guard allows it, add the
combined text as a streaming bot message. -/
def applyCombined (s : ChatState) (combined : String) : ChatState :=
  if combined = emptyString then s
  else if dedupAllows s.conversation_history combined then
    add_message_to_conversation s s.botname combined true false
  else s

/-- `flush_token_buffer`: join the buffered fragments, clear the buffer, and
apply the combined text to the view. -/
def flush_token_buffer (s : ChatState) : ChatState :=
  applyCombined { s with token_buffer := [] } (joinStrings s.token_buffer)

/-- `disable_send_button`: the body of the method is `pass`. -/
def disable_send_button (s : ChatState) : ChatState :=
  s

/-- `enable_send_button`. -/
def enable_send_button (s : ChatState) : ChatState :=
  { s with send_disabled := false }

/-- `interrupt_button_clicked`: issue an interrupt to the backend, stop the
progress bar, clear the generating flag, re-enable the send button. -/
def interrupt_button_clicked (s : ChatState) : ChatState :=
  enable_send_button
    { s with interrupts := s.interrupts + 1, generating := false }

/-- `do_generate(prompt_override)`: choose the prompt (the typed text when
the override is absent or empty), warn and return on an empty prompt; while
generating, hold the prompt only if none is already held and issue an
interrupt; otherwise set the generating flag, render the typed text as a
user message, clear the input and send the request. -/
def do_generate (s : ChatState) (prompt_override : Option String) : ChatState :=
  let prompt :=
    match prompt_override with
    | none => s.prompt
    | some p => if p = emptyString then s.prompt else p
  if prompt = emptyString then
    { s with warnings := s.warnings + 1 }
  else if s.generating then
    match s.held_message with
    | none =>
      interrupt_button_clicked
        (disable_send_button { s with held_message := some prompt })
    | some _ => s
  else
    let s1 := { s with generating := true }
    let s2 := add_message_to_conversation s1 s1.username s1.prompt false true
    let s3 := { s2 with prompt := emptyString }
    { s3 with sent := s3.sent ++ [{ prompt := prompt, held_at_send := s3.held_message }] }

/-- `enable_generate`: clear the generating flag; if a prompt is held,
re-submit it via `do_generate` and only afterwards clear the held prompt;
re-enable the send button. -/
def enable_generate (s : ChatState) : ChatState :=
  let s1 := { s with generating := false }
  let s2 :=
    match s1.held_message with
    | some h => { do_generate s1 (some h) with held_message := none }
    | none => s1
  enable_send_button s2

/-- Error text raised when the streamed-message payload has no response. -/
def errNoResponse : String := "No LLMResponse object found in data"

/-- `on_add_bot_message_to_conversation(data)`: raise when the payload lacks
a truthy response; ignore events of other branches (`node_id` set); append
the message to the token buffer; on end of message run `enable_generate`. -/
def on_add_bot_message_to_conversation (s : ChatState)
    (response : Option LLMResponse) : Except String ChatState :=
  match response with
  | none => Except.error errNoResponse
  | some r =>
    if r.node_id.isSome then Except.ok s
    else
      let s1 := { s with token_buffer := s.token_buffer ++ [r.message] }
      if r.is_end_of_message then Except.ok (enable_generate s1)
      else Except.ok s1

/-- `_clear_conversation_widgets`: remove every item from the layout. -/
def clear_conversation_widgets (s : ChatState) : ChatState :=
  { s with layout := [] }

/-- `_clear_conversation`: empty the history list and clear the widgets. -/
def clear_conversation (s : ChatState) : ChatState :=
  clear_conversation_widgets { s with conversation_history := [] }

/-- `on_delete_conversation(data)`: clear the rendered view when the deleted
conversation is the active one or none is active; in every case reset the
conversation reference (`self.conversation = None`). -/
def on_delete_conversation (s : ChatState) (dataId : Option Int) : ChatState :=
  let s1 :=
    if s.conversation_id = dataId ∨ s.conversation_id = none then
      clear_conversation_widgets s
    else s
  { s1 with conversation_id := none }

/-- `on_hear_signal`: store the transcription as the prompt and generate. -/
def on_hear_signal (s : ChatState) (transcription : String) : ChatState :=
  do_generate { s with prompt := transcription } none

/-- `_set_conversation_widgets`: insert each loaded message as a first
message. -/
def set_conversation_widgets (s : ChatState) (messages : List MsgData) :
    ChatState :=
  messages.foldl
    (fun st m => add_message_to_conversation st m.name m.content m.is_bot true) s

/-- `on_load_conversation(data)`: with a conversation id, set it, clear the
conversation and insert the loaded messages; otherwise clear and reset the
conversation reference. -/
def on_load_conversation (s : ChatState) (conversationId : Option Int)
    (messages : List MsgData) : ChatState :=
  match conversationId with
  | some cid =>
    set_conversation_widgets
      (clear_conversation { s with conversation_id := some cid }) messages
  | none =>
    { clear_conversation s with conversation_id := none }

/-- `prompt_text_changed`: mirror the typed text into `self.prompt`. -/
def prompt_text_changed (s : ChatState) (val : String) : ChatState :=
  { s with prompt := val }

/-- The widget state right after `__init__`. -/
def initState : ChatState :=
  { generating := false
    held_message := none
    token_buffer := []
    conversation_history := []
    layout := []
    spacer_created := false
    prompt := emptyString
    conversation_id := none
    username := "User"
    botname := "Bot"
    bot_mood := none
    bot_mood_emoji := none
    send_disabled := false
    sent := []
    interrupts := 0
    warnings := 0 }

/-- The operations of the widget, as externally triggerable events. -/
inductive Op where
  | doGenerate (prompt_override : Option String)
  | interruptClicked
  | enableGenerate
  | botMessage (response : Option LLMResponse)
  | flushTokens
  | clearConversation
  | deleteConversation (dataId : Option Int)
  | promptChanged (val : String)
  | hearSignal (transcription : String)
  | loadConversation (conversationId : Option Int) (messages : List MsgData)
  deriving DecidableEq

/-- One step of the widget: dispatch an operation. A raised
`on_add_bot_message_to_conversation` error propagates to the Qt dispatcher
and leaves the widget state unchanged. -/
def step (s : ChatState) : Op → ChatState
  | .doGenerate ov => do_generate s ov
  | .interruptClicked => interrupt_button_clicked s
  | .enableGenerate => enable_generate s
  | .botMessage r =>
    match on_add_bot_message_to_conversation s r with
    | Except.ok s1 => s1
    | Except.error _ => s
  | .flushTokens => flush_token_buffer s
  | .clearConversation => clear_conversation s
  | .deleteConversation d => on_delete_conversation s d
  | .promptChanged v => prompt_text_changed s v
  | .hearSignal t => on_hear_signal s t
  | .loadConversation cid msgs => on_load_conversation s cid msgs

/-- Run a sequence of operations from a state. -/
def run (s : ChatState) : List Op → ChatState
  | [] => s
  | op :: rest => run (step s op) rest

/-- Concrete prompt used in counterexample traces. -/
def strA : String := "a"

/-- Concrete prompt used in counterexample traces. -/
def strB : String := "b"

/-- Concrete prompt used in counterexample traces. -/
def strC : String := "c"

/-- Concrete prompt used in counterexample traces. -/
def strX : String := "x"

/-- A streamed response carrying the end-of-message marker. -/
def rEnd : LLMResponse :=
  { message := "hi", is_first_message := false, is_end_of_message := true,
    node_id := none }

section ProjectionLemmas

variable (s : ChatState)

@[simp] theorem remove_spacer_sent : (remove_spacer s).sent = s.sent := by
  unfold remove_spacer; split <;> rfl

@[simp] theorem remove_spacer_held :
    (remove_spacer s).held_message = s.held_message := by
  unfold remove_spacer; split <;> rfl

@[simp] theorem remove_spacer_hist :
    (remove_spacer s).conversation_history = s.conversation_history := by
  unfold remove_spacer; split <;> rfl

@[simp] theorem remove_spacer_generating :
    (remove_spacer s).generating = s.generating := by
  unfold remove_spacer; split <;> rfl

@[simp] theorem remove_spacer_buffer :
    (remove_spacer s).token_buffer = s.token_buffer := by
  unfold remove_spacer; split <;> rfl

theorem appendMessagePath_fields (name msg : String) (is_bot : Bool) :
    (appendMessagePath s name msg is_bot).sent = s.sent
    ∧ (appendMessagePath s name msg is_bot).held_message = s.held_message
    ∧ (appendMessagePath s name msg is_bot).conversation_history
        = s.conversation_history
    ∧ (appendMessagePath s name msg is_bot).generating = s.generating
    ∧ (appendMessagePath s name msg is_bot).token_buffer = s.token_buffer := by
  unfold appendMessagePath add_spacer remove_spacer
  dsimp only
  split <;> split <;> exact ⟨rfl, rfl, rfl, rfl, rfl⟩

theorem add_message_fields (name message : String) (is_bot first_message : Bool) :
    (add_message_to_conversation s name message is_bot first_message).sent = s.sent
    ∧ (add_message_to_conversation s name message is_bot first_message).held_message
        = s.held_message
    ∧ (add_message_to_conversation s name message is_bot first_message).conversation_history
        = s.conversation_history
    ∧ (add_message_to_conversation s name message is_bot first_message).generating
        = s.generating
    ∧ (add_message_to_conversation s name message is_bot first_message).token_buffer
        = s.token_buffer := by
  unfold add_message_to_conversation
  dsimp only
  split
  · exact appendMessagePath_fields s _ _ _
  · split
    · split
      · split
        · simp
        · simp
      · exact appendMessagePath_fields s _ _ _
    · exact appendMessagePath_fields s _ _ _

@[simp] theorem add_message_sent (name message : String) (is_bot first_message : Bool) :
    (add_message_to_conversation s name message is_bot first_message).sent = s.sent :=
  (add_message_fields s name message is_bot first_message).1

@[simp] theorem add_message_held (name message : String) (is_bot first_message : Bool) :
    (add_message_to_conversation s name message is_bot first_message).held_message
      = s.held_message :=
  (add_message_fields s name message is_bot first_message).2.1

@[simp] theorem add_message_hist (name message : String) (is_bot first_message : Bool) :
    (add_message_to_conversation s name message is_bot first_message).conversation_history
      = s.conversation_history :=
  (add_message_fields s name message is_bot first_message).2.2.1

@[simp] theorem add_message_generating (name message : String) (is_bot first_message : Bool) :
    (add_message_to_conversation s name message is_bot first_message).generating
      = s.generating :=
  (add_message_fields s name message is_bot first_message).2.2.2.1

@[simp] theorem add_message_buffer (name message : String) (is_bot first_message : Bool) :
    (add_message_to_conversation s name message is_bot first_message).token_buffer
      = s.token_buffer :=
  (add_message_fields s name message is_bot first_message).2.2.2.2

end ProjectionLemmas

/-- Claim C1 (amended): when `do_generate` is called with a non-empty prompt
while `generating` is true and no prompt is held, the prompt is stored as the
held message, but `generating` is false immediately afterwards, because the
hold path invokes `interrupt_button_clicked`, which clears the flag. Hence
`held_message` being set does not imply `generating` is true. -/
theorem C1_hold_clears_generating (s : ChatState) (p : String)
    (hp : p ≠ emptyString) (hg : s.generating = true)
    (hh : s.held_message = none) :
    (do_generate s (some p)).held_message = some p
    ∧ (do_generate s (some p)).generating = false := by
  simp [do_generate, hp, hg, hh, interrupt_button_clicked,
    disable_send_button, enable_send_button]

/-- Claim C1 (counterexample): from the initial state, the operation sequence
`do_generate "a"; do_generate "b"` reaches a state in which `held_message`
is set while `generating` is false, refuting the claimed invariant. -/
theorem C1_counterexample :
    (run initState [Op.doGenerate (some strA), Op.doGenerate (some strB)]).held_message
      = some strB
    ∧ (run initState [Op.doGenerate (some strA), Op.doGenerate (some strB)]).generating
      = false := by
  decide

/-- Claim C1 (witness): the amended theorem applied at the concrete reachable
state after `do_generate "a"`. -/
theorem C1_witness :
    (do_generate (run initState [Op.doGenerate (some strA)]) (some strB)).held_message
      = some strB
    ∧ (do_generate (run initState [Op.doGenerate (some strA)]) (some strB)).generating
      = false :=
  C1_hold_clears_generating (run initState [Op.doGenerate (some strA)]) strB
    (by decide) (by decide) (by decide)

/-- Trace reaching a state with `generating = true` and a held prompt `"x"`:
submit "a" (starts generating), submit "x" (held, interrupt clears the flag),
submit "b" (sent, since generating is false again). -/
def trace2 : List Op :=
  [Op.doGenerate (some strA), Op.doGenerate (some strX), Op.doGenerate (some strB)]

/-- Claim C2 (amended): calling `do_generate` with a non-empty prompt while
`generating` is true issues no `send_request`; a prompt is stored as held
only when no prompt was already held, and an already held prompt is kept
unchanged (first-write-wins, not last-write-wins). -/
theorem C2_no_send_first_write_wins (s : ChatState) (p : String)
    (hp : p ≠ emptyString) (hg : s.generating = true) :
    (do_generate s (some p)).sent = s.sent
    ∧ (s.held_message = none → (do_generate s (some p)).held_message = some p)
    ∧ (∀ q, s.held_message = some q →
        (do_generate s (some p)).held_message = some q) := by
  rcases hcase : s.held_message with _ | q <;>
    simp [do_generate, hp, hg, hcase, interrupt_button_clicked,
      disable_send_button, enable_send_button]

/-- Claim C2 (counterexample): in the reachable state after `trace2`,
`generating` is true and `"x"` is held; calling `do_generate "c"` leaves the
held prompt at `"x"` instead of overwriting it with `"c"`, refuting the
claimed last-write-wins behavior. -/
theorem C2_counterexample :
    (run initState trace2).generating = true
    ∧ (run initState trace2).held_message = some strX
    ∧ (do_generate (run initState trace2) (some strC)).held_message = some strX
    ∧ some strX ≠ some strC := by
  decide

/-- Claim C2 (witness): the amended theorem applied at the concrete reachable
state after `trace2`, where a prompt is already held. -/
theorem C2_witness :
    (do_generate (run initState trace2) (some strC)).sent
      = (run initState trace2).sent
    ∧ ((run initState trace2).held_message = none →
        (do_generate (run initState trace2) (some strC)).held_message = some strC)
    ∧ (∀ q, (run initState trace2).held_message = some q →
        (do_generate (run initState trace2) (some strC)).held_message = some q) :=
  C2_no_send_first_write_wins (run initState trace2) strC (by decide) (by decide)

/-- Trace delivering an end-of-message signal while the prompt `"x"` is held:
submit "a", submit "x" (held), then the streamed end-of-message event. -/
def trace3 : List Op :=
  [Op.doGenerate (some strA), Op.doGenerate (some strX), Op.botMessage (some rEnd)]

/-- Claim C3 (amended): when `enable_generate` runs while a non-empty prompt
`h` is held, exactly one subsequent `send_request` is issued, it uses `h`,
and `held_message` is `none` after the call; however the held prompt is
cleared after the re-submission, not before: at the moment the send is
issued, `held_message` still equals `some h`. Re-entry is prevented because
`generating` is cleared before the re-submission, not by clearing the held
prompt. -/
theorem C3_resubmit_held_once (s : ChatState) (h : String)
    (hne : h ≠ emptyString) (hh : s.held_message = some h) :
    (enable_generate s).sent
      = s.sent ++ [{ prompt := h, held_at_send := some h }]
    ∧ (enable_generate s).held_message = none := by
  simp [enable_generate, do_generate, hh, hne, enable_send_button]

/-- Claim C3 (counterexample): after `trace3`, the re-submission send event
recorded `held_message = some "x"` at the moment the send was issued, so the
held prompt was not cleared before the re-submission as claimed. -/
theorem C3_counterexample :
    (run initState trace3).sent
      = [{ prompt := strA, held_at_send := none },
         { prompt := strX, held_at_send := some strX }]
    ∧ (run initState trace3).held_message = none
    ∧ some strX ≠ (none : Option String) := by
  decide

/-- Claim C3 (witness): the amended theorem applied at the concrete reachable
state after `do_generate "a"; do_generate "x"`, where `"x"` is held. -/
theorem C3_witness :
    (enable_generate (run initState [Op.doGenerate (some strA), Op.doGenerate (some strX)])).sent
      = (run initState [Op.doGenerate (some strA), Op.doGenerate (some strX)]).sent
        ++ [{ prompt := strX, held_at_send := some strX }]
    ∧ (enable_generate (run initState [Op.doGenerate (some strA), Op.doGenerate (some strX)])).held_message
      = none :=
  C3_resubmit_held_once
    (run initState [Op.doGenerate (some strA), Op.doGenerate (some strX)]) strX
    (by decide) (by decide)

/-- Concrete user name for counterexample traces. -/
def strU : String := "u"

/-- Concrete message for counterexample traces. -/
def strHello : String := "hello"

/-- Concrete message for counterexample traces. -/
def strWorld : String := "world"

section LayoutLemmas

theorem widgetCount_filter (l : List LayoutItem) :
    widgetCount (l.filter fun it => !it.isSpacer) = widgetCount l := by
  simp [widgetCount, List.filter_filter]

theorem widgetCount_append (a b : List LayoutItem) :
    widgetCount (a ++ b) = widgetCount a + widgetCount b := by
  simp [widgetCount, List.filter_append]

theorem widgetCount_reverse (l : List LayoutItem) :
    widgetCount l.reverse = widgetCount l := by
  simp [widgetCount, List.filter_reverse]

theorem lastWidget_append_widget_spacer (l : List LayoutItem) (w : MessageWidget) :
    lastWidget ((l ++ [LayoutItem.widget w]) ++ [LayoutItem.spacer]) = some w := by
  simp [lastWidget, lastWidgetRev, List.reverse_append]

end LayoutLemmas

theorem widgetIds_nil : widgetIds [] = [] := rfl

theorem widgetIds_cons_widget (w : MessageWidget) (rest : List LayoutItem) :
    widgetIds (.widget w :: rest) = w.message_id :: widgetIds rest := rfl

theorem widgetIds_cons_spacer (rest : List LayoutItem) :
    widgetIds (.spacer :: rest) = widgetIds rest := rfl

theorem widgetIds_append (a b : List LayoutItem) :
    widgetIds (a ++ b) = widgetIds a ++ widgetIds b := by
  simp [widgetIds, List.filterMap_append]

theorem filter_nsp_widget (w : MessageWidget) (rest : List LayoutItem) :
    ((LayoutItem.widget w :: rest).filter fun it => !it.isSpacer)
      = LayoutItem.widget w :: (rest.filter fun it => !it.isSpacer) := rfl

theorem filter_nsp_spacer (rest : List LayoutItem) :
    ((LayoutItem.spacer :: rest).filter fun it => !it.isSpacer)
      = rest.filter fun it => !it.isSpacer := rfl

theorem widgetCount_cons_widget (w : MessageWidget) (rest : List LayoutItem) :
    widgetCount (.widget w :: rest) = widgetCount rest + 1 := rfl

theorem widgetCount_cons_spacer (rest : List LayoutItem) :
    widgetCount (.spacer :: rest) = widgetCount rest := rfl

theorem widgetIds_filter :
    ∀ l : List LayoutItem,
      widgetIds (l.filter fun it => !it.isSpacer) = widgetIds l
  | [] => rfl
  | .widget w :: rest => by
    rw [filter_nsp_widget, widgetIds_cons_widget, widgetIds_cons_widget,
      widgetIds_filter rest]
  | .spacer :: rest => by
    rw [filter_nsp_spacer, widgetIds_cons_spacer, widgetIds_filter rest]

theorem widgetIds_reverse :
    ∀ l : List LayoutItem, widgetIds l.reverse = (widgetIds l).reverse
  | [] => rfl
  | it :: rest => by
    cases it <;>
      simp [List.reverse_cons, widgetIds_append, widgetIds_cons_widget,
        widgetIds_cons_spacer, widgetIds_nil, widgetIds_reverse rest]

theorem widgetIds_mutate (msg : String) :
    ∀ l : List LayoutItem, widgetIds (mutateLastBotRev msg l) = widgetIds l
  | [] => rfl
  | .spacer :: rest => by
    simp [mutateLastBotRev, widgetIds_cons_spacer, widgetIds_mutate msg rest]
  | .widget w :: rest => by
    simp [mutateLastBotRev, widgetIds_cons_widget]

theorem widgetCount_mutate (msg : String) :
    ∀ l : List LayoutItem, widgetCount (mutateLastBotRev msg l) = widgetCount l
  | [] => rfl
  | .spacer :: rest => by
    show widgetCount (LayoutItem.spacer :: mutateLastBotRev msg rest)
        = widgetCount (LayoutItem.spacer :: rest)
    rw [widgetCount_cons_spacer, widgetCount_cons_spacer,
      widgetCount_mutate msg rest]
  | .widget w :: rest => rfl

/-- The sequence of ids the widget assigns to its first `k` entries:
`0, 0, 1, 2, ..., k - 2` (the i-th entry receives `i - 1` clamped at 0). -/
def idSeq (k : Nat) : List Nat :=
  (List.range k).map fun i => i - 1

theorem idSeq_succ (k : Nat) : idSeq (k + 1) = idSeq k ++ [k - 1] := by
  simp [idSeq, List.range_succ]

theorem chain_le_idSeq (k : Nat) :
    List.Chain' (fun a b => a ≤ b) (idSeq k) := by
  have h1 := List.pairwise_lt_range k
  have h2 : List.Pairwise (fun a b => a ≤ b)
      ((List.range k).map fun i => i - 1) :=
    h1.map _ (fun a b hab => Nat.sub_le_sub_right (Nat.le_of_lt hab) 1)
  exact h2.chain'

/-- The append branch with a non-empty message: the entry count rises by
one, the new (last) widget carries id `entry count - 1` (clamped at zero),
the id list gains exactly that id, and the spacer exists afterward. -/
theorem appendMessagePath_spec (s : ChatState) (name msg : String)
    (is_bot : Bool) (hmsg : msg ≠ emptyString)
    (hsp : s.spacer_created = false → s.layout = []) :
    widgetCount (appendMessagePath s name msg is_bot).layout
      = widgetCount s.layout + 1
    ∧ (lastWidget (appendMessagePath s name msg is_bot).layout).map
        MessageWidget.message_id = some (widgetCount s.layout - 1)
    ∧ widgetIds (appendMessagePath s name msg is_bot).layout
        = widgetIds s.layout ++ [widgetCount s.layout - 1]
    ∧ (appendMessagePath s name msg is_bot).spacer_created = true := by
  unfold appendMessagePath remove_spacer add_spacer
  cases hc : s.spacer_created with
  | false =>
    have hl := hsp hc
    simp [hc, hl, hmsg, widgetCount, lastWidget, lastWidgetRev,
      LayoutItem.isSpacer, widgetIds_cons_widget, widgetIds_cons_spacer,
      widgetIds_nil]
  | true =>
    simp only [hc, hmsg, ite_true, ite_false, if_true, if_false]
    refine ⟨?_, ?_, ?_, trivial⟩
    · rw [widgetCount_append, widgetCount_append, widgetCount_filter]
      simp [widgetCount, LayoutItem.isSpacer]
    · rw [lastWidget_append_widget_spacer]
      simp [widgetCount]
    · rw [widgetIds_append, widgetIds_append, widgetIds_filter]
      simp [widgetIds_cons_widget, widgetIds_cons_spacer, widgetIds_nil,
        widgetCount]

/-- Whether `add_message_to_conversation` takes the append branch: a first
message, or a backward search that finds no widget, or one whose most recent
widget is not a bot widget. -/
def takesAppendPath (s : ChatState) (first_message : Bool) : Bool :=
  first_message ||
    match lastWidgetRev s.layout.reverse with
    | none => true
    | some w => !w.is_bot

/-- The layout invariant of the widget: the spacer exists once the layout is
non-empty, and the assigned widget ids form the sequence `idSeq`. -/
def LayoutInv (s : ChatState) : Prop :=
  (s.spacer_created = false → s.layout = [])
  ∧ widgetIds s.layout = idSeq (widgetCount s.layout)

theorem widgetIds_spacer_single : widgetIds [LayoutItem.spacer] = [] := rfl

theorem widgetCount_spacer_single : widgetCount [LayoutItem.spacer] = 0 := rfl

theorem remove_spacer_ids (s : ChatState) :
    widgetIds (remove_spacer s).layout = widgetIds s.layout
    ∧ widgetCount (remove_spacer s).layout = widgetCount s.layout := by
  unfold remove_spacer
  split
  · exact ⟨widgetIds_filter _, widgetCount_filter _⟩
  · exact ⟨rfl, rfl⟩

theorem appendMessagePath_empty (s : ChatState) (name : String) (b : Bool) :
    appendMessagePath s name emptyString b = add_spacer (remove_spacer s) := by
  unfold appendMessagePath
  simp

theorem add_spacer_inv (t : ChatState)
    (h2 : widgetIds t.layout = idSeq (widgetCount t.layout)) :
    LayoutInv (add_spacer t) := by
  unfold LayoutInv
  constructor
  · intro hfalse
    simp [add_spacer] at hfalse
  · show widgetIds (t.layout ++ [LayoutItem.spacer])
        = idSeq (widgetCount (t.layout ++ [LayoutItem.spacer]))
    rw [widgetIds_append, widgetCount_append, widgetIds_spacer_single,
      widgetCount_spacer_single]
    simpa using h2

theorem appendMessagePath_inv (s : ChatState) (name msg : String)
    (is_bot : Bool) (h : LayoutInv s) :
    LayoutInv (appendMessagePath s name msg is_bot) := by
  by_cases hm : msg = emptyString
  · subst hm
    rw [appendMessagePath_empty]
    apply add_spacer_inv
    rw [(remove_spacer_ids s).1, (remove_spacer_ids s).2]
    exact h.2
  · have spec := appendMessagePath_spec s name msg is_bot hm h.1
    unfold LayoutInv
    constructor
    · intro hfalse
      rw [spec.2.2.2] at hfalse
      simp at hfalse
    · rw [spec.2.2.1, spec.1, idSeq_succ, h.2]

theorem add_message_layoutInv (s : ChatState) (name message : String)
    (is_bot first_message : Bool) (h : LayoutInv s) :
    LayoutInv (add_message_to_conversation s name message is_bot first_message) := by
  unfold add_message_to_conversation
  dsimp only
  split
  · exact appendMessagePath_inv _ _ _ _ h
  · split
    · split
      · split
        · exact h
        · unfold LayoutInv
          constructor
          · intro hfalse
            have hl := h.1 hfalse
            dsimp only
            rw [hl]
            rfl
          · dsimp only
            rw [widgetIds_reverse, widgetIds_mutate, widgetIds_reverse,
              List.reverse_reverse, widgetCount_reverse, widgetCount_mutate,
              widgetCount_reverse]
            exact h.2
      · exact appendMessagePath_inv _ _ _ _ h
    · exact appendMessagePath_inv _ _ _ _ h

theorem do_generate_inv (s : ChatState) (ov : Option String)
    (h : LayoutInv s) : LayoutInv (do_generate s ov) := by
  unfold do_generate interrupt_button_clicked disable_send_button
    enable_send_button
  dsimp only
  split
  · exact h
  · split
    · split
      · exact h
      · exact h
    · exact add_message_layoutInv _ _ _ _ _ h

theorem enable_generate_inv (s : ChatState) (h : LayoutInv s) :
    LayoutInv (enable_generate s) := by
  unfold enable_generate enable_send_button
  dsimp only
  split
  · exact do_generate_inv _ _ h
  · exact h

theorem flush_token_buffer_inv (s : ChatState) (h : LayoutInv s) :
    LayoutInv (flush_token_buffer s) := by
  unfold flush_token_buffer applyCombined
  dsimp only
  split
  · exact h
  · split
    · exact add_message_layoutInv _ _ _ _ _ h
    · exact h

theorem clear_conversation_inv (s : ChatState) :
    LayoutInv (clear_conversation s) :=
  ⟨fun _ => rfl, rfl⟩

theorem on_delete_conversation_inv (s : ChatState) (d : Option Int)
    (h : LayoutInv s) : LayoutInv (on_delete_conversation s d) := by
  unfold on_delete_conversation clear_conversation_widgets
  dsimp only
  split
  · exact ⟨fun _ => rfl, rfl⟩
  · exact h

theorem set_conversation_widgets_inv :
    ∀ (msgs : List MsgData) (s : ChatState), LayoutInv s →
      LayoutInv (set_conversation_widgets s msgs)
  | [], _, h => h
  | m :: rest, s, h =>
    set_conversation_widgets_inv rest
      (add_message_to_conversation s m.name m.content m.is_bot true)
      (add_message_layoutInv _ _ _ _ _ h)

theorem on_load_conversation_inv (s : ChatState) (cid : Option Int)
    (msgs : List MsgData) : LayoutInv (on_load_conversation s cid msgs) := by
  cases cid with
  | some c => exact set_conversation_widgets_inv msgs _ (clear_conversation_inv _)
  | none => exact ⟨fun _ => rfl, rfl⟩

theorem step_layout_inv (s : ChatState) (op : Op) (h : LayoutInv s) :
    LayoutInv (step s op) := by
  cases op with
  | doGenerate ov => exact do_generate_inv _ _ h
  | interruptClicked => exact h
  | enableGenerate => exact enable_generate_inv _ h
  | botMessage r =>
    cases r with
    | none => exact h
    | some v =>
      simp only [step]
      cases heq : on_add_bot_message_to_conversation s (some v) with
      | error e => exact h
      | ok s2 =>
        unfold on_add_bot_message_to_conversation at heq
        dsimp only at heq
        split at heq
        · cases heq; exact h
        · split at heq
          · cases heq
            exact enable_generate_inv _ h
          · cases heq; exact h
  | flushTokens => exact flush_token_buffer_inv _ h
  | clearConversation => exact clear_conversation_inv _
  | deleteConversation d => exact on_delete_conversation_inv _ _ h
  | promptChanged v => exact h
  | hearSignal t => exact do_generate_inv _ _ h
  | loadConversation cid msgs => exact on_load_conversation_inv _ _ _

theorem run_layout_inv :
    ∀ (ops : List Op) (s : ChatState), LayoutInv s → LayoutInv (run s ops)
  | [], _, h => h
  | op :: rest, s, h => run_layout_inv rest (step s op) (step_layout_inv s op h)

/-- First append from the initial state. -/
def s41 : ChatState :=
  add_message_to_conversation initState strU strHello false true

/-- Second append: the entry count is 1 at the time of this append. -/
def s42 : ChatState :=
  add_message_to_conversation s41 strU strWorld false true

/-- Claim C4 (counterexample): after two appends, both entries carry
`message_id = 0`, although the second was appended while the entry count was
1; so the id does not equal the entry count at the time of the append and
the ids are not strictly increasing. -/
theorem C4_counterexample :
    widgetIds s41.layout = [0]
    ∧ widgetCount s41.layout = 1
    ∧ widgetIds s42.layout = [0, 0]
    ∧ (0 : Nat) ≠ 1 := by
  decide

/-- Unfolding equation of `add_message_to_conversation` for a streamed
(non-first) message. -/
theorem add_message_not_first (s : ChatState) (name message : String)
    (is_bot : Bool) :
    add_message_to_conversation s name message is_bot false
      = (match lastWidgetRev s.layout.reverse with
        | some w =>
          if w.is_bot then
            (if strip_names_from_message message s.username s.botname
                = emptyString
             then s
             else { s with layout :=
               (mutateLastBotRev
                 (strip_names_from_message message s.username s.botname)
                 s.layout.reverse).reverse })
          else
            appendMessagePath s name
              (strip_names_from_message message s.username s.botname) is_bot
        | none =>
          appendMessagePath s name
            (strip_names_from_message message s.username s.botname) is_bot) :=
  rfl

/-- Claim C4 (amended): whenever `add_message_to_conversation` appends a new
entry — a first message, or a streamed apply whose backward search finds no
widget or a non-bot widget — the new entry receives `message_id` equal to
the entry count at the time of the append minus one, clamped at zero (not
the entry count itself): the spacer is removed from the layout before
`layout.count() - 1` is computed. Consequently the first two appended
entries both receive id `0`, and across every reachable state the assigned
ids form the sequence `0, 0, 1, 2, ...` — weakly, not strictly,
increasing. -/
theorem C4_append_id_count_minus_one (s : ChatState) (name msg : String)
    (is_bot first_message : Bool)
    (hmsg : strip_names_from_message (if first_message then lstrip msg else msg)
        s.username s.botname ≠ emptyString)
    (hsp : s.spacer_created = false → s.layout = [])
    (happend : takesAppendPath s first_message = true) :
    (widgetCount (add_message_to_conversation s name msg is_bot first_message).layout
        = widgetCount s.layout + 1
      ∧ (lastWidget (add_message_to_conversation s name msg is_bot first_message).layout).map
          MessageWidget.message_id = some (widgetCount s.layout - 1))
    ∧ ∀ ops : List Op,
        widgetIds (run initState ops).layout
          = idSeq (widgetCount (run initState ops).layout)
        ∧ List.Chain' (fun a b => a ≤ b) (widgetIds (run initState ops).layout) := by
  constructor
  · cases hf : first_message with
    | true =>
      rw [hf] at hmsg
      have spec := appendMessagePath_spec s name
        (strip_names_from_message (lstrip msg) s.username s.botname) is_bot
        hmsg hsp
      exact ⟨spec.1, spec.2.1⟩
    | false =>
      rw [hf] at hmsg happend
      have spec := appendMessagePath_spec s name
        (strip_names_from_message msg s.username s.botname) is_bot hmsg hsp
      unfold takesAppendPath at happend
      simp only [Bool.false_or] at happend
      rw [add_message_not_first]
      cases heq : lastWidgetRev s.layout.reverse with
      | none =>
        exact ⟨spec.1, spec.2.1⟩
      | some w =>
        rw [heq] at happend
        have hbot : w.is_bot = false := by simpa using happend
        dsimp only
        rw [hbot]
        exact ⟨spec.1, spec.2.1⟩
  · intro ops
    have hinv := run_layout_inv ops initState ⟨fun _ => rfl, rfl⟩
    refine ⟨hinv.2, ?_⟩
    rw [hinv.2]
    exact chain_le_idSeq _

/-- Claim C4 (witness): the amended theorem applied at the concrete state
after one append, with `first_message = false` and a non-bot most recent
widget, so the streamed-apply append branch is exercised. -/
theorem C4_witness :
    widgetCount (add_message_to_conversation s41 strU strWorld true false).layout
      = widgetCount s41.layout + 1
    ∧ (lastWidget (add_message_to_conversation s41 strU strWorld true false).layout).map
        MessageWidget.message_id = some (widgetCount s41.layout - 1) :=
  (C4_append_id_count_minus_one s41 strU strWorld true false (by decide)
    (by decide) (by decide)).1

/-- Concrete token fragment. -/
def strHiSp : String := "Hi "

/-- Concrete token fragment. -/
def strThere : String := "there"

/-- Concrete combined streamed text. -/
def strHiThere : String := "Hi there"

/-- Claim C5: if the token buffer drains to the same non-empty text `t`
twice in a row while the last history entry is a bot message whose content
already equals `t`, both flushes are no-ops apart from clearing the buffer:
no entry is added or changed, the history and the rendered layout are
unchanged after the second call. -/
theorem C5_duplicate_flush_noop (s : ChatState) (tb2 : List String)
    (t : String) (ht : t ≠ emptyString)
    (hb1 : joinStrings s.token_buffer = t)
    (hb2 : joinStrings tb2 = t)
    (hlast : s.conversation_history.getLast? = some { is_bot := true, content := t }) :
    flush_token_buffer s = { s with token_buffer := [] }
    ∧ flush_token_buffer { flush_token_buffer s with token_buffer := tb2 }
        = { s with token_buffer := [] } := by
  have h1 : flush_token_buffer s = { s with token_buffer := [] } := by
    simp [flush_token_buffer, applyCombined, hb1, ht, dedupAllows, hlast]
  refine ⟨h1, ?_⟩
  rw [h1]
  simp [flush_token_buffer, applyCombined, hb2, ht, dedupAllows, hlast]

/-- Concrete state for the C5 witness: the buffer holds fragments joining to
the content of the last (bot) history entry. -/
def s5 : ChatState :=
  { initState with
    token_buffer := [strHiSp, strThere]
    conversation_history := [{ is_bot := true, content := strHiThere }] }

/-- Claim C5 (witness): the theorem applied at the concrete state `s5`. -/
theorem C5_witness :
    flush_token_buffer s5 = { s5 with token_buffer := [] }
    ∧ flush_token_buffer { flush_token_buffer s5 with token_buffer := [strHiThere] }
        = { s5 with token_buffer := [] } :=
  C5_duplicate_flush_noop s5 [strHiThere] strHiThere (by decide) (by decide)
    (by decide) (by decide)

/-- On a reversed layout with a first message widget `w`, replacing the
content keeps the widget count and the found widget becomes `w` with the new
message. -/
theorem mutateLastBotRev_spec (msg : String) :
    ∀ (l : List LayoutItem) (w : MessageWidget), lastWidgetRev l = some w →
      lastWidgetRev (mutateLastBotRev msg l) = some { w with message := msg }
      ∧ widgetCount (mutateLastBotRev msg l) = widgetCount l
  | [], w, h => by simp [lastWidgetRev] at h
  | .spacer :: rest, w, h => by
    have ih := mutateLastBotRev_spec msg rest w (by simpa [lastWidgetRev] using h)
    simp [mutateLastBotRev, lastWidgetRev, widgetCount, LayoutItem.isSpacer,
      ih.1, ih.2 ]
    exact ih.2
  | .widget v :: rest, w, h => by
    simp [lastWidgetRev] at h
    subst h
    simp [mutateLastBotRev, lastWidgetRev, widgetCount, LayoutItem.isSpacer]

/-- The append branch raises the widget count by exactly one when the
message is non-empty. -/
theorem appendMessagePath_widgetCount (s : ChatState) (name msg : String)
    (b : Bool) (hmsg : msg ≠ emptyString) :
    widgetCount (appendMessagePath s name msg b).layout
      = widgetCount s.layout + 1 := by
  unfold appendMessagePath remove_spacer add_spacer
  cases hc : s.spacer_created with
  | false =>
    simp only [hc, hmsg, ite_true, ite_false, if_true, if_false]
    rw [widgetCount_append, widgetCount_append]
    simp [widgetCount, LayoutItem.isSpacer]
  | true =>
    simp only [hc, hmsg, ite_true, ite_false, if_true, if_false]
    rw [widgetCount_append, widgetCount_append, widgetCount_filter]
    simp [widgetCount, LayoutItem.isSpacer]

/-- Claim C6: applying non-empty streamed bot text with
`first_message = False` to a view whose most recent message entry is a bot
message mutates that entry in place (its content becomes the new text) and
keeps the entry count unchanged; when the most recent message entry is not a
bot message, the backward search stops and a new entry is appended instead,
raising the entry count by one. -/
theorem C6_mutate_in_place_or_append (s : ChatState) (name msg : String)
    (w : MessageWidget) (hmsg : msg ≠ emptyString)
    (hw : lastWidget s.layout = some w) :
    (w.is_bot = true →
      widgetCount (add_message_to_conversation s name msg true false).layout
        = widgetCount s.layout
      ∧ lastWidget (add_message_to_conversation s name msg true false).layout
        = some { w with message := msg })
    ∧ (w.is_bot = false →
      widgetCount (add_message_to_conversation s name msg true false).layout
        = widgetCount s.layout + 1) := by
  have hw0 : lastWidgetRev s.layout.reverse = some w := hw
  constructor
  · intro hbot
    have hm := mutateLastBotRev_spec msg s.layout.reverse w hw0
    simp only [add_message_to_conversation, strip_names_from_message,
      if_false, ite_false, Bool.false_eq_true, hw0, hbot, ite_true, if_true,
      hmsg]
    constructor
    · rw [widgetCount_reverse, hm.2, widgetCount_reverse]
    · simp only [lastWidget, List.reverse_reverse]
      have hm1 := hm.1
      rw [hbot] at hm1
      exact hm1
  · intro hbot
    simp only [add_message_to_conversation, strip_names_from_message,
      if_false, ite_false, Bool.false_eq_true, hw0, hbot, ite_true, if_true,
      hmsg]
    exact appendMessagePath_widgetCount s name msg true hmsg

/-- A concrete bot widget for the C6 witness. -/
def wBot : MessageWidget :=
  { name := strU, message := strHiSp, is_bot := true, message_id := 0,
    conversation_id := none, mood := none, mood_emoji := none }

/-- Concrete state whose most recent message entry is a bot message. -/
def s6 : ChatState :=
  { initState with
    layout := [LayoutItem.widget wBot, LayoutItem.spacer]
    spacer_created := true }

/-- Claim C6 (witness): the theorem applied at the concrete state `s6`. -/
theorem C6_witness :
    (wBot.is_bot = true →
      widgetCount (add_message_to_conversation s6 strU strHiThere true false).layout
        = widgetCount s6.layout
      ∧ lastWidget (add_message_to_conversation s6 strU strHiThere true false).layout
        = some { wBot with message := strHiThere })
    ∧ (wBot.is_bot = false →
      widgetCount (add_message_to_conversation s6 strU strHiThere true false).layout
        = widgetCount s6.layout + 1) :=
  C6_mutate_in_place_or_append s6 strU strHiThere wBot (by decide) (by decide)

/-- A streamed token event carrying fragment `f` (not first, not final, no
node id): `on_add_bot_message_to_conversation` appends `f` to the buffer. -/
def mkTokenOp (f : String) : Op :=
  Op.botMessage (some
    { message := f, is_first_message := false, is_end_of_message := false,
      node_id := none })

/-- Delivering token events appends the fragments to the buffer in arrival
order and changes nothing else. -/
theorem run_token_ops :
    ∀ (fs : List String) (s : ChatState),
      run s (fs.map mkTokenOp)
        = { s with token_buffer := s.token_buffer ++ fs }
  | [], s => by simp [run]
  | f :: fs, s => by
    have ih := run_token_ops fs { s with token_buffer := s.token_buffer ++ [f] }
    simp only [List.map_cons, run, step, mkTokenOp,
      on_add_bot_message_to_conversation, Option.isSome_none, ite_false,
      Bool.false_eq_true, if_false]
    rw [ih]
    simp

/-- The flush never leaves fragments in the buffer. -/
theorem flush_buffer_empty (s : ChatState) :
    (flush_token_buffer s).token_buffer = [] := by
  unfold flush_token_buffer applyCombined
  split
  · rfl
  · split
    · simp
    · rfl

/-- Replacing an already empty buffer by the empty list is the identity. -/
theorem update_buffer_self (s : ChatState) (h : s.token_buffer = []) :
    { s with token_buffer := ([] : List String) } = s := by
  rw [← h]

/-- A flush on an empty buffer performs no action at all. -/
theorem flush_empty_buffer (s : ChatState) (h : s.token_buffer = []) :
    flush_token_buffer s = s := by
  unfold flush_token_buffer
  rw [h]
  rw [update_buffer_self s h]
  simp [joinStrings, applyCombined, emptyString]

/-- Claim C7: delivering token fragments `f1..fn` to an empty buffer and
then flushing drains exactly the concatenation of `f1..fn` in arrival order
(the flush applies `joinStrings fs` to the view) and leaves the buffer
empty; a second flush with no intervening appends drains the empty string
and performs no further action. -/
theorem C7_buffer_concat_drain (s : ChatState) (fs : List String)
    (h : s.token_buffer = []) :
    run s (fs.map mkTokenOp) = { s with token_buffer := fs }
    ∧ flush_token_buffer (run s (fs.map mkTokenOp))
        = applyCombined { s with token_buffer := [] } (joinStrings fs)
    ∧ (flush_token_buffer (run s (fs.map mkTokenOp))).token_buffer = []
    ∧ flush_token_buffer (flush_token_buffer (run s (fs.map mkTokenOp)))
        = flush_token_buffer (run s (fs.map mkTokenOp)) := by
  have h1 : run s (fs.map mkTokenOp) = { s with token_buffer := fs } := by
    rw [run_token_ops fs s, h]
    simp
  refine ⟨h1, ?_, ?_, ?_⟩
  · rw [h1]
    rfl
  · rw [h1]
    exact flush_buffer_empty _
  · exact flush_empty_buffer _ (flush_buffer_empty _)

/-- Concrete token fragment. -/
def strHi : String := "Hi"

/-- Concrete token fragment. -/
def strSpThere : String := " there"

/-- Claim C7 (witness): the theorem applied at the initial state with the
fragments of the spec scenario. -/
theorem C7_witness :
    run initState ([strHi, strSpThere].map mkTokenOp)
      = { initState with token_buffer := [strHi, strSpThere] }
    ∧ flush_token_buffer (run initState ([strHi, strSpThere].map mkTokenOp))
        = applyCombined { initState with token_buffer := [] }
            (joinStrings [strHi, strSpThere])
    ∧ (flush_token_buffer (run initState ([strHi, strSpThere].map mkTokenOp))).token_buffer
        = []
    ∧ flush_token_buffer
          (flush_token_buffer (run initState ([strHi, strSpThere].map mkTokenOp)))
        = flush_token_buffer (run initState ([strHi, strSpThere].map mkTokenOp)) :=
  C7_buffer_concat_drain initState [strHi, strSpThere] rfl

/-- Claim C8 (amended): `on_delete_conversation` clears the rendered view
when the deleted conversation is the active one or none is active, and
leaves the view untouched otherwise; but it is not a no-op in the second
case: in every case the active conversation reference is reset to `None`
afterwards, while every other field is unchanged. -/
theorem C8_delete_always_resets_reference (s : ChatState) (d : Option Int) :
    ((s.conversation_id = d ∨ s.conversation_id = none) →
      on_delete_conversation s d
        = { s with layout := [], conversation_id := none })
    ∧ (¬(s.conversation_id = d ∨ s.conversation_id = none) →
      on_delete_conversation s d = { s with conversation_id := none }) := by
  constructor <;> intro h <;>
    simp [on_delete_conversation, clear_conversation_widgets, h]

/-- Concrete state with an active conversation. -/
def s8 : ChatState := { initState with conversation_id := some 1 }

/-- Claim C8 (counterexample): deleting a different conversation (id 2)
while conversation 1 is active leaves the view untouched but resets the
active conversation reference to `None`, so the call is not a no-op as
claimed. -/
theorem C8_counterexample :
    s8.conversation_id = some 1
    ∧ s8.conversation_id ≠ some 2
    ∧ (on_delete_conversation s8 (some 2)).layout = s8.layout
    ∧ (on_delete_conversation s8 (some 2)).conversation_id = none
    ∧ (none : Option Int) ≠ some 1 := by
  decide

/-- Claim C8 (witness): the amended theorem applied at the concrete state
`s8` with a non-matching conversation id. -/
theorem C8_witness :
    on_delete_conversation s8 (some 2) = { s8 with conversation_id := none } :=
  (C8_delete_always_resets_reference s8 (some 2)).2 (by decide)

/-- Claim C9: a streamed-message event whose payload lacks a truthy response
raises (the error surfaces to the caller) and the widget state is unchanged;
every event with a well-formed response returns without raising. -/
theorem C9_missing_response_raises (s : ChatState) :
    on_add_bot_message_to_conversation s none = Except.error errNoResponse
    ∧ step s (Op.botMessage none) = s
    ∧ ∀ r : LLMResponse, ∃ s2,
        on_add_bot_message_to_conversation s (some r) = Except.ok s2 := by
  refine ⟨rfl, rfl, ?_⟩
  intro r
  unfold on_add_bot_message_to_conversation
  dsimp only
  split
  · exact ⟨s, rfl⟩
  · split
    · exact ⟨_, rfl⟩
    · exact ⟨_, rfl⟩

section HistoryLemmas

variable (s : ChatState)

theorem do_generate_hist (ov : Option String) :
    (do_generate s ov).conversation_history = s.conversation_history := by
  unfold do_generate interrupt_button_clicked disable_send_button
    enable_send_button
  dsimp only
  split
  · rfl
  · split
    · split <;> rfl
    · simp

theorem enable_generate_hist :
    (enable_generate s).conversation_history = s.conversation_history := by
  unfold enable_generate enable_send_button
  dsimp only
  split
  · simp [do_generate_hist]
  · rfl

theorem flush_hist :
    (flush_token_buffer s).conversation_history = s.conversation_history := by
  unfold flush_token_buffer applyCombined
  split
  · rfl
  · split
    · simp
    · rfl

theorem set_conversation_widgets_hist :
    ∀ (msgs : List MsgData) (s : ChatState),
      (set_conversation_widgets s msgs).conversation_history
        = s.conversation_history
  | [], s => rfl
  | m :: rest, s => by
    have ih := set_conversation_widgets_hist rest
      (add_message_to_conversation s m.name m.content m.is_bot true)
    simp only [set_conversation_widgets, List.foldl_cons] at ih ⊢
    rw [ih]
    simp

theorem on_load_conversation_hist (cid : Option Int) (msgs : List MsgData) :
    (on_load_conversation s cid msgs).conversation_history = [] := by
  cases cid with
  | none => rfl
  | some c =>
    simp [on_load_conversation, set_conversation_widgets_hist,
      clear_conversation, clear_conversation_widgets]

theorem step_hist (op : Op) (h : s.conversation_history = []) :
    (step s op).conversation_history = [] := by
  cases op with
  | doGenerate ov => rw [step, do_generate_hist]; exact h
  | interruptClicked =>
    simp [step, interrupt_button_clicked, enable_send_button, h]
  | enableGenerate => rw [step, enable_generate_hist]; exact h
  | botMessage r =>
    cases r with
    | none => exact h
    | some v =>
      simp only [step]
      cases heq : on_add_bot_message_to_conversation s (some v) with
      | error e => exact h
      | ok s2 =>
        unfold on_add_bot_message_to_conversation at heq
        dsimp only at heq
        split at heq
        · cases heq; exact h
        · split at heq
          · cases heq
            rw [enable_generate_hist]
            exact h
          · cases heq; exact h
  | flushTokens => rw [step, flush_hist]; exact h
  | clearConversation =>
    simp [step, clear_conversation, clear_conversation_widgets]
  | deleteConversation d =>
    unfold step on_delete_conversation clear_conversation_widgets
    dsimp only
    split <;> exact h
  | promptChanged v => exact h
  | hearSignal t =>
    rw [step, on_hear_signal, do_generate_hist]; exact h
  | loadConversation cid msgs => rw [step, on_load_conversation_hist]

/-- Every reachable state keeps an empty history. -/
theorem run_hist_empty :
    ∀ (ops : List Op) (s : ChatState), s.conversation_history = [] →
      (run s ops).conversation_history = []
  | [], _, h => h
  | op :: rest, s, h => run_hist_empty rest (step s op) (step_hist s op h)

end HistoryLemmas

/-- Claim C10: no operation of the widget ever appends to
`conversation_history`: from the initial state, every reachable state has an
empty history, so the duplicate guard of `flush_token_buffer` is satisfied
on every flush, and every flush with non-empty combined text calls
`add_message_to_conversation` with that text. -/
theorem C10_history_stays_empty (ops : List Op) :
    (run initState ops).conversation_history = []
    ∧ (joinStrings (run initState ops).token_buffer ≠ emptyString →
        flush_token_buffer (run initState ops)
          = add_message_to_conversation
              { run initState ops with token_buffer := [] }
              (run initState ops).botname
              (joinStrings (run initState ops).token_buffer) true false) := by
  have h1 : (run initState ops).conversation_history = [] :=
    run_hist_empty ops initState rfl
  refine ⟨h1, ?_⟩
  intro hne
  unfold flush_token_buffer applyCombined
  simp [hne, dedupAllows, h1]

/-- Operation list for the C10 witness: one streamed token event. -/
def ops10 : List Op := [mkTokenOp strHi]

/-- Claim C10 (witness): the theorem applied after one token event, whose
buffer joins to a non-empty text. -/
theorem C10_witness :
    (run initState ops10).conversation_history = []
    ∧ flush_token_buffer (run initState ops10)
        = add_message_to_conversation
            { run initState ops10 with token_buffer := [] }
            (run initState ops10).botname
            (joinStrings (run initState ops10).token_buffer) true false :=
  ⟨(C10_history_stays_empty ops10).1,
    (C10_history_stays_empty ops10).2 (by decide)⟩

end AirChat
